import Mathlib

/-!
Verification of the pane-layout core of `react-scrollable-panes`.

The development shallowly embeds the layout/navigation core of the
repository:

* the pane-list operations `openPane` / `closePane` of
  `src/SlipStackContainer.tsx` (promote-to-end variant) and the
  truncate-after `openPane` of `src/ScrollableTiledContainer.tsx`;
* the overflow-tab allocator of `SlipStackContainer` (`initialTabCount`,
  the `leftTabs`/`pinnedPane`/`trackPanes`/`rightTabs` partition via
  JavaScript `Array.prototype.slice` semantics, and `trackOffset`);
* the wheel-gesture step of `SlipStackContainer` (`useWheel` handler)
  acting on the `tabOffset`/`tabRefuge` state;
* the tab-demotion `while` loop of `ScrollableTiledContainer`.

Pixel quantities are modelled as exact rationals; `Math.ceil`/`Math.floor`
are `Int.ceil`/`Int.floor`.  Where JavaScript floating-point division by a
zero denominator produces a non-finite value, the model returns `none`.
-/

namespace ScrollablePanes

/-- Pane descriptor of `SlipStackPane.tsx`: an `id` (unique key), a `title`,
and opaque `element` content (type parameter `α`). -/
structure SlipStackPaneData (α : Type) where
  id : String
  title : String
  element : α
deriving DecidableEq

/-- Pane descriptor of `ScrollableTiledPane.tsx`, structurally the same shape. -/
structure ScrollableTiledPaneData (α : Type) where
  id : String
  title : String
  element : α
deriving DecidableEq

/-- Embedding of `openPane` from `SlipStackContainer.tsx` (lines 62-65):
`const i = prev.findIndex(p => p.id === next.id);`
`return i === -1 ? [...prev, next] : [...prev.filter(p => p.id !== next.id), next];`. -/
def openPane {α : Type} (prev : List (SlipStackPaneData α)) (next : SlipStackPaneData α) :
    List (SlipStackPaneData α) :=
  match prev.findIdx? (fun p => p.id == next.id) with
  | none => prev ++ [next]
  | some _ => prev.filter (fun p => p.id != next.id) ++ [next]

/-- Embedding of `closePane` from `SlipStackContainer.tsx` (lines 70-72):
`setPanes(prev => prev.filter(p => p.id !== id))`. -/
def closePane {α : Type} (prev : List (SlipStackPaneData α)) (pid : String) :
    List (SlipStackPaneData α) :=
  prev.filter (fun p => p.id != pid)

/-- Embedding of `openPane` from `ScrollableTiledContainer.tsx` (lines 58-65):
`return i === -1 ? [...prev, next] : [...prev.slice(0, i + 1)];`. -/
def openPaneTiled {α : Type} (prev : List (ScrollableTiledPaneData α))
    (next : ScrollableTiledPaneData α) : List (ScrollableTiledPaneData α) :=
  match prev.findIdx? (fun p => p.id == next.id) with
  | none => prev ++ [next]
  | some i => prev.take (i + 1)

/-- Helper: `findIdx?` misses when the predicate holds nowhere. -/
theorem findIdx_none_of_forall {α : Type} (p : α → Bool) (l : List α)
    (h : ∀ a ∈ l, p a = false) : l.findIdx? p = none :=
  List.findIdx?_eq_none_iff.mpr h

/-- Helper: the first index found by `findIdx?` on `l1 ++ a :: l2` is `l1.length`
when nothing in `l1` matches and `a` does. -/
theorem findIdx_append_of_first {α : Type} (p : α → Bool) (l1 : List α) (a : α) (l2 : List α)
    (h1 : ∀ x ∈ l1, p x = false) (ha : p a = true) :
    (l1 ++ a :: l2).findIdx? p = some l1.length := by
  rw [List.findIdx?_append, List.findIdx?_eq_none_iff.mpr h1]
  simp [List.findIdx?_cons, ha]

/-- Embedding of `initialTabCount` from `SlipStackContainer.tsx` (lines 93-95):
`Math.max(0, Math.ceil((((panes.length - 1) * maxPaneWidth) - viewportBounds.width + tabWidth) / (maxPaneWidth - tabWidth)))`.
Widths are exact rationals; `Math.ceil` is `Int.ceil`. -/
def initialTabCount (paneCount : ℕ) (maxPaneWidth viewportWidth tabWidth : ℚ) : ℤ :=
  max 0 ⌈(((paneCount : ℚ) - 1) * maxPaneWidth - viewportWidth + tabWidth) /
    (maxPaneWidth - tabWidth)⌉

/-- Model of the same expression under JavaScript number semantics: when the
denominator `maxPaneWidth - tabWidth` is zero, the floating-point division
produces a non-finite value (`Infinity` or `NaN`), modelled as `none`;
otherwise the exact rational result is returned. -/
def jsInitialTabCount (paneCount : ℕ) (maxPaneWidth viewportWidth tabWidth : ℚ) : Option ℤ :=
  if maxPaneWidth - tabWidth = 0 then none
  else some (initialTabCount paneCount maxPaneWidth viewportWidth tabWidth)

/-- Index normalisation of ECMAScript `Array.prototype.slice`: a negative
index counts from the end (clamped at 0), a non-negative one is clamped at
the length. -/
def jsNormIdx (len : ℕ) (i : ℤ) : ℕ :=
  if i < 0 then ((len : ℤ) + i).toNat else min i.toNat len

/-- ECMAScript `Array.prototype.slice(s, e)`: the elements with indices in
the half-open range from `jsNormIdx len s` to `jsNormIdx len e`. -/
def jsSlice {α : Type} (l : List α) (s e : ℤ) : List α :=
  (l.take (jsNormIdx l.length e)).drop (jsNormIdx l.length s)

/-- Derived layout partition of `SlipStackContainer` (spec `LayoutPartition`). -/
structure LayoutPartition (α : Type) where
  leftTabs : List (SlipStackPaneData α)
  pinnedPane : Option (SlipStackPaneData α)
  trackPanes : List (SlipStackPaneData α)
  rightTabs : List (SlipStackPaneData α)
deriving DecidableEq

/-- Embedding of the partition in `SlipStackContainer.tsx` (lines 106-108):
`const leftTabs = panes.slice(0, leftTabCount);`
`const [pinnedPane, ...trackPanes] = panes.slice(leftTabCount, panes.length - rightTabCount);`
`const rightTabs = panes.slice(panes.length - rightTabCount);`. -/
def partitionPanes {α : Type} (panes : List (SlipStackPaneData α))
    (leftTabCount rightTabCount : ℤ) : LayoutPartition α :=
  let middle := jsSlice panes leftTabCount ((panes.length : ℤ) - rightTabCount)
  { leftTabs := jsSlice panes 0 leftTabCount
    pinnedPane := middle.head?
    trackPanes := middle.tail
    rightTabs := jsSlice panes ((panes.length : ℤ) - rightTabCount) (panes.length : ℤ) }

/-- Concatenation of the four partition segments in display order, the
pinned pane omitted when absent. -/
def concatParts {α : Type} (p : LayoutPartition α) : List (SlipStackPaneData α) :=
  p.leftTabs ++ p.pinnedPane.toList ++ p.trackPanes ++ p.rightTabs

/-- Gesture-facing state of `SlipStackContainer`: the `tabOffset` counter and
the `tabRefuge` flag (lines 98-99). -/
structure WheelState where
  tabOffset : ℤ
  tabRefuge : Bool
deriving DecidableEq

/-- Embedding of lines 102-103: `leftTabCount = initialTabCount - tabOffset - (tabRefuge ? 1 : 0)`. -/
def leftTabCount (paneCount : ℕ) (maxPaneWidth viewportWidth tabWidth : ℚ)
    (s : WheelState) : ℤ :=
  initialTabCount paneCount maxPaneWidth viewportWidth tabWidth - s.tabOffset -
    (if s.tabRefuge then 1 else 0)

/-- Partition actually rendered by the container for a given gesture state
(`rightTabCount = tabOffset`, line 103). -/
def containerPartition {α : Type} (panes : List (SlipStackPaneData α))
    (maxPaneWidth viewportWidth tabWidth : ℚ) (s : WheelState) : LayoutPartition α :=
  partitionPanes panes (leftTabCount panes.length maxPaneWidth viewportWidth tabWidth s)
    s.tabOffset

/-- Embedding of the allocator output: the partition together with the track
offset of line 111, `trackOffset = leftTabs.length * tabWidth + maxPaneWidth`. -/
def allocate {α : Type} (panes : List (SlipStackPaneData α))
    (maxPaneWidth viewportWidth tabWidth : ℚ) (s : WheelState) :
    LayoutPartition α × ℚ :=
  let part := containerPartition panes maxPaneWidth viewportWidth tabWidth s
  (part, (part.leftTabs.length : ℚ) * tabWidth + maxPaneWidth)

/-- Embedding of `overlap` from `SlipStackContainer.tsx` (lines 114-117):
`Math.min(0, Math.floor(viewportBounds.width) - (leftTabCount + rightTabCount) * tabWidth - (panes.length - leftTabCount - rightTabCount) * maxPaneWidth)`. -/
def overlapVal (paneCount : ℕ) (maxPaneWidth viewportWidth tabWidth : ℚ)
    (lTC rTC : ℤ) : ℚ :=
  min 0 ((⌊viewportWidth⌋ : ℚ) - ((lTC + rTC : ℤ) : ℚ) * tabWidth -
    (((paneCount : ℤ) - lTC - rTC : ℤ) : ℚ) * maxPaneWidth)

/-- Embedding of one processed sample of the `useWheel` handler of
`SlipStackContainer.tsx` (lines 156-211), restricted to its effect on the
`tabOffset`/`tabRefuge` state.  The four guarded branches are the two
refuge-entry transitions and the two commits; every other sample leaves the
state unchanged (it only animates the track position). -/
def wheelStep (paneCount : ℕ) (maxPaneWidth viewportWidth tabWidth : ℚ)
    (s : WheelState) (x dx : ℚ) : WheelState :=
  let lTC := leftTabCount paneCount maxPaneWidth viewportWidth tabWidth s
  let rTC := s.tabOffset
  let overlap := overlapVal paneCount maxPaneWidth viewportWidth tabWidth lTC rTC
  let minBound := if s.tabRefuge then -(maxPaneWidth - tabWidth) else overlap
  let maxBound := if s.tabRefuge then overlap else 0
  let cx := max minBound (min maxBound (overlap - x))
  if dx < 0 then
    if s.tabRefuge = false ∧ 0 < lTC ∧ 0 ≤ cx then
      { s with tabRefuge := true }
    else if s.tabRefuge = true ∧ overlap ≤ cx then
      { tabOffset := s.tabOffset + 1, tabRefuge := false }
    else s
  else if 0 < dx then
    if s.tabRefuge = false ∧ 0 < rTC ∧ cx ≤ overlap then
      { tabOffset := s.tabOffset - 1, tabRefuge := true }
    else if s.tabRefuge = true ∧ cx ≤ -(maxPaneWidth - tabWidth) then
      { s with tabRefuge := false }
    else s
  else s

/-- Concrete pane descriptors used by witnesses and counterexamples. -/
def paneA : SlipStackPaneData Unit := ⟨"A", "A", ()⟩

/-- Concrete pane descriptor with id `B`. -/
def paneB : SlipStackPaneData Unit := ⟨"B", "B", ()⟩

/-- Concrete pane descriptor with id `C`. -/
def paneC : SlipStackPaneData Unit := ⟨"C", "C", ()⟩

/-- Concrete pane descriptor with id `D`. -/
def paneD : SlipStackPaneData Unit := ⟨"D", "D", ()⟩

/-- Concrete pane descriptor with id `E`. -/
def paneE : SlipStackPaneData Unit := ⟨"E", "E", ()⟩

/-- Concrete tiled pane descriptor with id `A`. -/
def tPaneA : ScrollableTiledPaneData Unit := ⟨"A", "A", ()⟩

/-- Concrete tiled pane descriptor with id `B`. -/
def tPaneB : ScrollableTiledPaneData Unit := ⟨"B", "B", ()⟩

/-- Claim C4: `openPane` on a descriptor whose id does not occur in the list
appends it at the end, increasing the length by exactly 1 and keeping every
existing pane in place. -/
theorem openPane_fresh_appends {α : Type} (prev : List (SlipStackPaneData α))
    (next : SlipStackPaneData α) (h : ∀ p ∈ prev, p.id ≠ next.id) :
    openPane prev next = prev ++ [next] ∧
      (openPane prev next).length = prev.length + 1 := by
  have hnone : prev.findIdx? (fun p => p.id == next.id) = none :=
    findIdx_none_of_forall _ _ (fun a ha => beq_eq_false_iff_ne.mpr (h a ha))
  unfold openPane
  rw [hnone]
  exact ⟨rfl, by simp⟩

/-- Witness for C4 at a concrete input. -/
theorem openPane_fresh_appends_witness :
    openPane [paneB] paneA = [paneB] ++ [paneA] ∧
      (openPane [paneB] paneA).length = [paneB].length + 1 :=
  openPane_fresh_appends [paneB] paneA (by decide)

/-- Claim C5 (corrected): with an id already present, the SlipStack variant
moves the pane to the end (replacing it by the fresh descriptor with the same
id) and preserves the length when no other pane shares the id, while the
ScrollableTiled variant truncates the list to end at the existing pane. -/
theorem openPane_existing_policy :
    (∀ (α : Type) (l1 l2 : List (SlipStackPaneData α)) (p next : SlipStackPaneData α),
        p.id = next.id → (∀ q ∈ l1, q.id ≠ next.id) → (∀ q ∈ l2, q.id ≠ next.id) →
        openPane (l1 ++ p :: l2) next = l1 ++ l2 ++ [next] ∧
          (openPane (l1 ++ p :: l2) next).length = (l1 ++ p :: l2).length) ∧
    (∀ (α : Type) (l1 l2 : List (ScrollableTiledPaneData α))
        (p next : ScrollableTiledPaneData α),
        p.id = next.id → (∀ q ∈ l1, q.id ≠ next.id) →
        openPaneTiled (l1 ++ p :: l2) next = l1 ++ [p]) := by
  constructor
  · intro α l1 l2 p next hid h1 h2
    have hfind : (l1 ++ p :: l2).findIdx? (fun q => q.id == next.id) = some l1.length :=
      findIdx_append_of_first _ _ _ _ (fun x hx => beq_eq_false_iff_ne.mpr (h1 x hx))
        (beq_iff_eq.mpr hid)
    have hfilter : (l1 ++ p :: l2).filter (fun q => q.id != next.id) = l1 ++ l2 := by
      rw [List.filter_append, List.filter_cons]
      have hp : (p.id != next.id) = false := by simp [hid]
      rw [hp]
      simp only [Bool.false_eq_true, if_false]
      rw [List.filter_eq_self.mpr (fun a ha => bne_iff_ne.mpr (h1 a ha)),
        List.filter_eq_self.mpr (fun a ha => bne_iff_ne.mpr (h2 a ha))]
    unfold openPane
    rw [hfind, hfilter]
    refine ⟨rfl, ?_⟩
    simp [Nat.add_comm, Nat.add_left_comm]
  · intro α l1 l2 p next hid h1
    have hfind : (l1 ++ p :: l2).findIdx? (fun q => q.id == next.id) = some l1.length :=
      findIdx_append_of_first _ _ _ _ (fun x hx => beq_eq_false_iff_ne.mpr (h1 x hx))
        (beq_iff_eq.mpr hid)
    unfold openPaneTiled
    rw [hfind]
    dsimp only
    rw [List.take_append_eq_append_take, List.take_of_length_le (Nat.le_succ_of_le le_rfl)]
    simp

/-- Witness for C5's amended statement at concrete inputs. -/
theorem openPane_existing_policy_witness :
    openPane ([paneB] ++ paneA :: []) paneA = [paneB] ++ [] ++ [paneA] ∧
      openPaneTiled ([tPaneB] ++ tPaneA :: []) tPaneA = [tPaneB] ++ [tPaneA] :=
  ⟨(openPane_existing_policy.1 Unit [paneB] [] paneA paneA rfl (by decide) (by decide)).1,
    openPane_existing_policy.2 Unit [tPaneB] [] tPaneA tPaneA rfl (by decide)⟩

/-- Claim C5 counterexample: in the ScrollableTiled variant, opening a pane
whose id is already present (but not last) shortens the list, so the claim
that `openPane` with an existing id never changes the list length is false. -/
theorem openPane_existing_length_counterexample :
    ([tPaneA, tPaneB].findIdx? (fun p => p.id == tPaneA.id)).isSome = true ∧
      (openPaneTiled [tPaneA, tPaneB] tPaneA).length = 1 ∧
      ([tPaneA, tPaneB] : List (ScrollableTiledPaneData Unit)).length = 2 := by
  refine ⟨?_, ?_, rfl⟩ <;> decide

/-- Claim C6: `closePane` removes the pane carrying the given id while
preserving the order of the remaining panes, and is a structural no-op when
no pane has that id. -/
theorem closePane_removes :
    (∀ (α : Type) (prev : List (SlipStackPaneData α)) (pid : String),
        (∀ p ∈ prev, p.id ≠ pid) → closePane prev pid = prev) ∧
    (∀ (α : Type) (l1 l2 : List (SlipStackPaneData α)) (p : SlipStackPaneData α)
        (pid : String),
        p.id = pid → (∀ q ∈ l1, q.id ≠ pid) → (∀ q ∈ l2, q.id ≠ pid) →
        closePane (l1 ++ p :: l2) pid = l1 ++ l2) := by
  constructor
  · intro α prev pid h
    exact List.filter_eq_self.mpr (fun a ha => bne_iff_ne.mpr (h a ha))
  · intro α l1 l2 p pid hid h1 h2
    unfold closePane
    rw [List.filter_append, List.filter_cons]
    have hp : (p.id != pid) = false := by simp [hid]
    rw [hp]
    simp only [Bool.false_eq_true, if_false]
    rw [List.filter_eq_self.mpr (fun a ha => bne_iff_ne.mpr (h1 a ha)),
      List.filter_eq_self.mpr (fun a ha => bne_iff_ne.mpr (h2 a ha))]

/-- Witness for C6 at concrete inputs. -/
theorem closePane_removes_witness :
    closePane [paneA] "B" = [paneA] ∧
      closePane ([paneA] ++ paneB :: []) "B" = [paneA] ++ [] :=
  ⟨closePane_removes.1 Unit [paneA] "B" (by decide),
    closePane_removes.2 Unit [paneA] [] paneB "B" rfl (by decide) (by decide)⟩

/-- Claim C8: both mutation operations preserve pairwise-distinct pane ids. -/
theorem paneIds_unique_preserved {α : Type} (prev : List (SlipStackPaneData α))
    (next : SlipStackPaneData α) (pid : String)
    (h : (prev.map (fun p => p.id)).Nodup) :
    ((openPane prev next).map (fun p => p.id)).Nodup ∧
      ((closePane prev pid).map (fun p => p.id)).Nodup := by
  have hsub : ∀ (f : SlipStackPaneData α → Bool),
      ((prev.filter f).map (fun p => p.id)).Nodup :=
    fun f => ((List.filter_sublist prev).map (fun p => p.id)).nodup h
  constructor
  · unfold openPane
    cases hfind : prev.findIdx? (fun p => p.id == next.id) with
    | none =>
        have hne : ∀ p ∈ prev, p.id ≠ next.id := by
          intro p hp
          exact beq_eq_false_iff_ne.mp (List.findIdx?_eq_none_iff.mp hfind p hp)
        rw [List.map_append, List.nodup_append]
        refine ⟨h, List.nodup_singleton _, ?_⟩
        intro a ha hb
        simp only [List.map_cons, List.map_nil, List.mem_singleton] at hb
        obtain ⟨p, hp, rfl⟩ := List.mem_map.mp ha
        exact hne p hp hb
    | some i =>
        rw [List.map_append, List.nodup_append]
        refine ⟨hsub _, List.nodup_singleton _, ?_⟩
        intro a ha hb
        simp only [List.map_cons, List.map_nil, List.mem_singleton] at hb
        obtain ⟨p, hp, rfl⟩ := List.mem_map.mp ha
        exact bne_iff_ne.mp (List.mem_filter.mp hp).2 hb
  · exact hsub _

/-- Witness for C8 at a concrete input. -/
theorem paneIds_unique_preserved_witness :
    ((openPane [paneA, paneB] paneC).map (fun p => p.id)).Nodup ∧
      ((closePane [paneA, paneB] "A").map (fun p => p.id)).Nodup :=
  paneIds_unique_preserved [paneA, paneB] paneC "A" (by decide)

/-- Helper: evaluate `initialTabCount` by bracketing its rational argument. -/
theorem initialTabCount_eq_of (paneCount : ℕ) (W V t : ℚ) (z : ℤ) (h0 : 0 ≤ z)
    (hlt : (z : ℚ) - 1 < (((paneCount : ℚ) - 1) * W - V + t) / (W - t))
    (hle : (((paneCount : ℚ) - 1) * W - V + t) / (W - t) ≤ (z : ℚ)) :
    initialTabCount paneCount W V t = z := by
  unfold initialTabCount
  rw [Int.ceil_eq_iff.mpr ⟨hlt, hle⟩]
  exact max_eq_right h0

/-- Helper: with five 100px panes in a 100px viewport and 40px tabs the code
asks for six collapsed tabs. -/
theorem initialTabCount_five : initialTabCount 5 100 100 40 = 6 :=
  initialTabCount_eq_of 5 100 100 40 6 (by norm_num) (by norm_num) (by norm_num)

/-- Helper: with three 100px panes in a 120px viewport the code asks for two
collapsed tabs. -/
theorem initialTabCount_three : initialTabCount 3 100 120 40 = 2 :=
  initialTabCount_eq_of 3 100 120 40 2 (by norm_num) (by norm_num) (by norm_num)

/-- Helper: the head-option rendered back to a list, followed by the tail,
is the original list. -/
theorem head_toList_append_tail {α : Type} (l : List α) : l.head?.toList ++ l.tail = l := by
  cases l <;> rfl

/-- Claim C1 (amended): the four partition segments concatenate back to the
pane list whenever the tab counts are non-negative and sum to at most the
number of panes. -/
theorem partition_roundtrip {α : Type} (panes : List (SlipStackPaneData α)) (lTC rTC : ℤ)
    (h0 : 0 ≤ lTC) (h1 : 0 ≤ rTC) (h2 : lTC + rTC ≤ (panes.length : ℤ)) :
    concatParts (partitionPanes panes lTC rTC) = panes := by
  have hidx0 : jsNormIdx panes.length 0 = 0 := by simp [jsNormIdx]
  have hidxl : jsNormIdx panes.length lTC = lTC.toNat := by
    unfold jsNormIdx
    rw [if_neg (not_lt.mpr h0)]
    exact min_eq_left (by omega)
  have hidxe : jsNormIdx panes.length ((panes.length : ℤ) - rTC) =
      ((panes.length : ℤ) - rTC).toNat := by
    unfold jsNormIdx
    rw [if_neg (by omega)]
    exact min_eq_left (by omega)
  have hidxn : jsNormIdx panes.length (panes.length : ℤ) = panes.length := by
    unfold jsNormIdx
    rw [if_neg (by omega)]
    simp
  have ham : lTC.toNat ≤ ((panes.length : ℤ) - rTC).toNat := by omega
  unfold concatParts partitionPanes jsSlice
  dsimp only
  rw [hidx0, hidxl, hidxe, hidxn, List.drop_zero, List.take_length,
    List.append_assoc (List.take lTC.toNat panes), head_toList_append_tail]
  rw [show List.take lTC.toNat panes =
      List.take lTC.toNat (List.take ((panes.length : ℤ) - rTC).toNat panes) by
    rw [List.take_take, min_eq_left ham]]
  rw [List.take_append_drop, List.take_append_drop]

/-- Witness for C1's amended statement at a concrete in-range input. -/
theorem partition_roundtrip_witness :
    concatParts (partitionPanes [paneA, paneB, paneC] 1 1) = [paneA, paneB, paneC] :=
  partition_roundtrip [paneA, paneB, paneC] 1 1 (by norm_num) (by norm_num) (by norm_num)

/-- Claim C1 counterexample: with five 100px panes, a 100px viewport and 40px
tabs the unclamped `initialTabCount` is 6, and after two committed wheel
samples the container reaches `tabOffset = 1` with `leftTabCount = 5` and
`rightTabCount = 1`; the rendered partition then lists pane E both as a left
tab and as a right tab, so the concatenation has six entries and does not
reconstruct the five-pane list. -/
theorem partition_roundtrip_counterexample :
    wheelStep 5 100 100 40 (wheelStep 5 100 100 40 ⟨0, false⟩ (-40) (-1)) 0 (-1) =
      ⟨1, false⟩ ∧
    concatParts (containerPartition [paneA, paneB, paneC, paneD, paneE] 100 100 40
        ⟨1, false⟩) = [paneA, paneB, paneC, paneD, paneE, paneE] ∧
    concatParts (containerPartition [paneA, paneB, paneC, paneD, paneE] 100 100 40
        ⟨1, false⟩) ≠ [paneA, paneB, paneC, paneD, paneE] := by
  have hstep1 : wheelStep 5 100 100 40 ⟨0, false⟩ (-40) (-1) = ⟨0, true⟩ := by
    simp only [wheelStep, leftTabCount, overlapVal, initialTabCount_five]
    norm_num
  have hstep2 : wheelStep 5 100 100 40 ⟨0, true⟩ 0 (-1) = ⟨1, false⟩ := by
    simp only [wheelStep, leftTabCount, overlapVal, initialTabCount_five]
    norm_num
  have hpart : concatParts (containerPartition [paneA, paneB, paneC, paneD, paneE] 100 100 40
      ⟨1, false⟩) = [paneA, paneB, paneC, paneD, paneE, paneE] := by
    norm_num [containerPartition, leftTabCount, partitionPanes, concatParts, jsSlice,
      jsNormIdx, initialTabCount_five]
    decide
  exact ⟨by rw [hstep1, hstep2], hpart, by rw [hpart]; decide⟩

/-- Claim C2 counterexample: the code applies no clamp `k ≤ paneCount - 1`;
at `paneCount = 5`, `maxPaneWidth = 100`, `viewportWidth = 100`,
`tabWidth = 40` it yields 6 collapsed tabs, not the claimed clamped value 4,
and exceeds `paneCount - 1`. -/
theorem initialTabCount_clamp_counterexample :
    initialTabCount 5 100 100 40 = 6 ∧ initialTabCount 5 100 100 40 ≠ 4 ∧
      ¬initialTabCount 5 100 100 40 ≤ 5 - 1 := by
  refine ⟨initialTabCount_five, ?_, ?_⟩ <;> rw [initialTabCount_five] <;> decide

/-- Claim C2 (amended): the collapsed-tab count is the unclamped
`max(0, ceil(((paneCount-1)*maxPaneWidth - viewportWidth + tabWidth) / (maxPaneWidth - tabWidth)))`;
it stays within `paneCount - 1` (leaving the pinned pane full) exactly when
`paneCount * tabWidth ≤ viewportWidth`. -/
theorem initialTabCount_pinned_iff (paneCount : ℕ) (W V t : ℚ) (hn : 1 ≤ paneCount)
    (ht : 0 < t) (hWt : t < W) :
    initialTabCount paneCount W V t ≤ (paneCount : ℤ) - 1 ↔ (paneCount : ℚ) * t ≤ V := by
  unfold initialTabCount
  have hd : (0 : ℚ) < W - t := by linarith
  have h01 : (0 : ℤ) ≤ (paneCount : ℤ) - 1 := by
    have : (1 : ℤ) ≤ (paneCount : ℤ) := by exact_mod_cast hn
    omega
  rw [max_le_iff, Int.ceil_le]
  constructor
  · rintro ⟨-, hc⟩
    rw [div_le_iff₀ hd] at hc
    push_cast at hc
    nlinarith
  · intro hV
    refine ⟨h01, ?_⟩
    rw [div_le_iff₀ hd]
    push_cast
    nlinarith

/-- Witness for C2's amended statement at a concrete input. -/
theorem initialTabCount_pinned_iff_witness :
    (initialTabCount 2 100 800 40 ≤ ((2 : ℕ) : ℤ) - 1 ↔ ((2 : ℕ) : ℚ) * 40 ≤ 800) :=
  initialTabCount_pinned_iff 2 100 800 40 (by norm_num) (by norm_num) (by norm_num)

/-- Claim C3 counterexample: the partition and track offset also depend on
the `tabRefuge` flag, which the claim's input list omits; with the listed
five inputs identical but the flag differing, the outputs differ. -/
theorem allocate_refuge_counterexample :
    allocate [paneA, paneB, paneC] 100 120 40 ⟨0, false⟩ ≠
      allocate [paneA, paneB, paneC] 100 120 40 ⟨0, true⟩ := by
  intro h
  have h' := congrArg (fun q => q.1.leftTabs.length) h
  norm_num [allocate, containerPartition, leftTabCount, partitionPanes, jsSlice,
    jsNormIdx, initialTabCount_three] at h'
  omega

/-- Claim C3 (amended): the allocator is a pure function of the pane list,
the three widths, the tab-offset counter and the refuge flag — identical
values of all of these yield identical partitions and track offsets. -/
theorem allocate_deterministic {α : Type} (panes₁ panes₂ : List (SlipStackPaneData α))
    (W₁ W₂ V₁ V₂ t₁ t₂ : ℚ) (s₁ s₂ : WheelState)
    (hp : panes₁ = panes₂) (hW : W₁ = W₂) (hV : V₁ = V₂) (ht : t₁ = t₂) (hs : s₁ = s₂) :
    allocate panes₁ W₁ V₁ t₁ s₁ = allocate panes₂ W₂ V₂ t₂ s₂ := by
  subst hp hW hV ht hs
  rfl

/-- Witness for C3's amended statement at a concrete input. -/
theorem allocate_deterministic_witness :
    allocate [paneA] 100 800 40 ⟨0, false⟩ = allocate [paneA] 100 800 40 ⟨0, false⟩ :=
  allocate_deterministic [paneA] [paneA] 100 100 800 800 40 40 ⟨0, false⟩ ⟨0, false⟩
    rfl rfl rfl rfl rfl

/-- Claim C7: the tab-count computation has no guard for
`maxPaneWidth ≤ tabWidth`.  At `maxPaneWidth = tabWidth = 40` the denominator
is zero and the JavaScript division produces a non-finite value (modelled as
`none`), and at `maxPaneWidth = 30 < tabWidth = 40` the negative denominator
yields six collapsed tabs for a single pane instead of the claimed `k = 0`. -/
theorem initialTabCount_guard_missing :
    jsInitialTabCount 2 40 40 40 = none ∧ initialTabCount 1 30 100 40 = 6 :=
  ⟨by simp [jsInitialTabCount],
    initialTabCount_eq_of 1 30 100 40 6 (by norm_num) (by norm_num) (by norm_num)⟩

/-- Claim C9: a single processed wheel sample changes the tab-offset counter
by at most 1 in absolute value — each branch of the handler leaves it
unchanged or moves it by exactly one committed promotion or demotion. -/
theorem wheelStep_tabOffset_bounded (paneCount : ℕ) (W V t : ℚ) (s : WheelState)
    (x dx : ℚ) :
    |(wheelStep paneCount W V t s x dx).tabOffset - s.tabOffset| ≤ 1 := by
  simp only [wheelStep]
  split_ifs <;> simp [abs_le]

/-- Pane width of `ScrollableTiledContainer.tsx` (line 67):
`paneWidth = Math.min(width, bounds.width)`. -/
def tiledPaneWidth (width boundsWidth : ℚ) : ℚ :=
  min width boundsWidth

/-- Embedding of `maxVisible` from `ScrollableTiledContainer.tsx` (line 69):
`Math.max(1, Math.min(panes.length, Math.floor((bounds.width + (paneWidth - tabWidth)) / paneWidth)))`. -/
def tiledMaxVisible (paneCount : ℕ) (boundsWidth paneWidth tabWidth : ℚ) : ℤ :=
  max 1 (min (paneCount : ℤ) ⌊(boundsWidth + (paneWidth - tabWidth)) / paneWidth⌋)

/-- Mutable locals of the demotion loop of `ScrollableTiledContainer.tsx`
(lines 81-92): `visibleCount`, `rightTabs`, `available` and `offset`. -/
structure TiledLayout where
  visibleCount : ℤ
  rightTabs : ℤ
  available : ℚ
  offset : ℚ
deriving DecidableEq

/-- Entry state of the loop (lines 80-85): `leftTabs = viewIndex`,
`visibleCount = max(0, min(maxVisible, panes.length - leftTabs))`,
`rightTabs = max(0, panes.length - leftTabs - visibleCount)`,
`available = bounds.width - (leftTabs + rightTabs) * tabWidth`,
`offset = paneWidth * visibleCount - available`. -/
def tiledInit (paneCount : ℕ) (boundsWidth paneWidth tabWidth : ℚ)
    (viewIndex maxVisible : ℤ) : TiledLayout :=
  let leftTabs := viewIndex
  let visibleCount := max 0 (min maxVisible ((paneCount : ℤ) - leftTabs))
  let rightTabs := max 0 ((paneCount : ℤ) - leftTabs - visibleCount)
  let available := boundsWidth - ((leftTabs + rightTabs : ℤ) : ℚ) * tabWidth
  { visibleCount := visibleCount
    rightTabs := rightTabs
    available := available
    offset := paneWidth * (visibleCount : ℚ) - available }

/-- Loop guard of line 87:
`offset <= -(paneWidth - tabWidth) && (visibleCount > 1 || leftTabs > 0)`. -/
def tiledLoopGuard (paneWidth tabWidth : ℚ) (leftTabs : ℤ) (st : TiledLayout) : Prop :=
  st.offset ≤ -(paneWidth - tabWidth) ∧ (1 < st.visibleCount ∨ 0 < leftTabs)

/-- Loop body of lines 88-91: demote one visible pane to a right tab and
recompute `available` and `offset`. -/
def tiledLoopBody (boundsWidth paneWidth tabWidth : ℚ) (leftTabs : ℤ)
    (st : TiledLayout) : TiledLayout :=
  let visibleCount := st.visibleCount - 1
  let rightTabs := st.rightTabs + 1
  let available := boundsWidth - ((leftTabs + rightTabs : ℤ) : ℚ) * tabWidth
  { visibleCount := visibleCount
    rightTabs := rightTabs
    available := available
    offset := paneWidth * (visibleCount : ℚ) - available }

/-- State of the loop locals after `k` executions of the body. -/
def tiledIter (boundsWidth paneWidth tabWidth : ℚ) (leftTabs : ℤ)
    (st : TiledLayout) : ℕ → TiledLayout
  | 0 => st
  | k + 1 => tiledLoopBody boundsWidth paneWidth tabWidth leftTabs
      (tiledIter boundsWidth paneWidth tabWidth leftTabs st k)

/-- Loop entry state for `paneCount = 2`, `bounds.width = 800`,
`width = 300`, `tabWidth = 40` and `viewIndex = 1` (one wheel tick after the
initial render). -/
def tiledBadStart : TiledLayout :=
  tiledInit 2 800 (tiledPaneWidth 300 800) 40 1
    (tiledMaxVisible 2 800 (tiledPaneWidth 300 800) 40)

/-- Helper: the configured 300px pane width is below the 800px viewport. -/
theorem tiledPaneWidth_300 : tiledPaneWidth 300 800 = 300 := by
  unfold tiledPaneWidth
  norm_num

/-- Helper: concrete value of the loop entry state behind `tiledBadStart`:
one pane visible, no right tabs, 760px available, offset -460. -/
theorem tiledBadStart_eq : tiledBadStart = ⟨1, 0, 760, -460⟩ := by
  have hfloor : (⌊((800 : ℚ) + (300 - 40)) / 300⌋ : ℤ) = 3 := by
    rw [Int.floor_eq_iff]
    norm_num
  unfold tiledBadStart tiledInit tiledMaxVisible
  rw [tiledPaneWidth_300, hfloor]
  norm_num

/-- Helper: closed form of the loop locals after `k` iterations from
`tiledBadStart`: each pass removes one visible pane, adds one right tab,
shrinks `available` by 40 and drives `offset` down by another 260. -/
theorem tiledIter_badStart (k : ℕ) :
    tiledIter 800 300 40 1 tiledBadStart k =
      ⟨1 - (k : ℤ), (k : ℤ), 760 - 40 * (k : ℚ), -460 - 260 * (k : ℚ)⟩ := by
  induction k with
  | zero =>
      simpa using tiledBadStart_eq
  | succ k ih =>
      rw [show (k + 1 : ℕ) = k + 1 from rfl]
      unfold tiledIter
      rw [ih]
      unfold tiledLoopBody
      refine TiledLayout.mk.injEq .. ▸ ?_
      push_cast
      norm_num
      constructor <;> ring

/-- Claim C10: the demotion loop does not terminate on the in-range input
`paneCount = 2`, `bounds.width = 800`, `width = 300`, `tabWidth = 40`,
`viewIndex = 1`: the guard of line 87 still holds after every number of
iterations, because each pass lowers `offset` by `paneWidth - tabWidth`
(keeping the first conjunct true) while `leftTabs > 0` keeps the disjunct
true regardless of `visibleCount`. -/
theorem tiledLoop_never_exits (k : ℕ) :
    tiledLoopGuard (tiledPaneWidth 300 800) 40 1
      (tiledIter 800 (tiledPaneWidth 300 800) 40 1 tiledBadStart k) := by
  rw [tiledPaneWidth_300, tiledIter_badStart k]
  unfold tiledLoopGuard
  have hk : (0 : ℚ) ≤ (k : ℚ) := Nat.cast_nonneg k
  exact ⟨by norm_num; linarith, Or.inr (by norm_num)⟩

end ScrollablePanes
